import Mathlib

/-!
Shallow embedding of the Modbus RTU slave skeleton (src/Modbus/Modbus.cpp)
and verification of its specification claims.

Bytes are modelled as natural numbers; every read of a `uint8_t` value is
taken modulo 256, and the 16-bit CRC arithmetic stays below 2^16 by
construction, mirroring the C `uint16_t` operations.  Out-of-bounds buffer
reads (which are undefined behaviour in the C source) are modelled with
`List.getD` returning 0; the set of indices the C code dereferences is
tracked separately by `modbus_request_read_indices`.
-/

set_option maxRecDepth 40000

namespace Modbus

/-- Function-code constants from the source (lines 21-28). -/
def FC_READ_COILS : Nat := 0x01

def FC_READ_DISCRETE_INPUTS : Nat := 0x02

def FC_READ_HOLDING_REGS : Nat := 0x03

def FC_READ_INPUT_REGS : Nat := 0x04

def FC_WRITE_SINGLE_COIL : Nat := 0x05

def FC_WRITE_SINGLE_REG : Nat := 0x06

def FC_WRITE_MULTIPLE_COILS : Nat := 0x0F

def FC_WRITE_MULTIPLE_REGS : Nat := 0x10

/-- Error-code constant `ERROR_ILLEGAL_FUNCTION` (source line 31). -/
def ERROR_ILLEGAL_FUNCTION : Nat := 0x01

/-- Error-code constant `ERROR_ILLEGAL_DATA_ADDRESS` (source line 32). -/
def ERROR_ILLEGAL_DATA_ADDRESS : Nat := 0x02

/-- One inner iteration of the CRC loop (source lines 46-52): test the least
significant bit, shift right, and conditionally xor the polynomial 0xA001. -/
def crcBitStep (crc : Nat) : Nat :=
  if crc % 2 = 1 then (crc / 2) ^^^ 0xA001 else crc / 2

/-- The 8-fold inner loop `for (j = 0; j < 8; j++)` of the CRC (line 45). -/
def crcBits : Nat → Nat → Nat
  | 0, crc => crc
  | n + 1, crc => crcBits n (crcBitStep crc)

/-- Processing of one data byte (source lines 44-53): xor the byte into the
low half of the CRC accumulator, then run eight bit steps.  The `% 256`
mirrors the `uint8_t` type of `data[i]`. -/
def crcByteStep (crc b : Nat) : Nat :=
  crcBits 8 (crc ^^^ (b % 256))

/-- The function `modbus_crc16` (source lines 41-56): fold over the data with
initial accumulator 0xFFFF; no final xor. -/
def modbus_crc16 (data : List Nat) : Nat :=
  data.foldl crcByteStep 0xFFFF

/-- Reading `request[i]` as a `uint8_t`; out-of-bounds reads (undefined
behaviour in C) are modelled as 0. -/
def byteAt (request : List Nat) (i : Nat) : Nat :=
  request.getD i 0 % 256

/-- The four data banks (source lines 15-18): `coils` and `discrete_inputs`
are byte arrays of 100/8+1 = 13 packed bytes, `holding_registers` and
`input_registers` are 100 sixteen-bit cells. -/
structure ModbusState where
  coils : List Nat
  discrete_inputs : List Nat
  holding_registers : List Nat
  input_registers : List Nat
  deriving DecidableEq, Repr

/-- The zero-initialized data store: C static arrays start zeroed, and
`modbus_init` (lines 120-128) rewrites the holding registers with zeros. -/
def modbus_data_init : ModbusState :=
  ⟨List.replicate 13 0, List.replicate 13 0,
   List.replicate 100 0, List.replicate 100 0⟩

/-- The CRC verification of an incoming frame (source lines 67-70):
`crc_calc` is the CRC over all bytes but the trailing two, and
`crc_received` is rebuilt from the last byte (high) and second-to-last byte
(low), i.e. the wire carries the low byte first. -/
def modbus_frame_crc_ok (request : List Nat) : Bool :=
  modbus_crc16 (request.take (request.length - 2)) =
    ((byteAt request (request.length - 1)) <<< 8 |||
      byteAt request (request.length - 2))

/-- The exception frame built by the `default` branch (source lines 99-112):
`[slave_addr, function_code | 0x80, ERROR_ILLEGAL_FUNCTION]` followed by the
CRC over those three bytes, low byte first. -/
def illegal_function_response (slave_addr function_code : Nat) : List Nat :=
  let head := [slave_addr, function_code ||| 0x80, ERROR_ILLEGAL_FUNCTION]
  head ++ [modbus_crc16 head % 256, modbus_crc16 head / 256]

/-- The function `modbus_process_request` (source lines 59-117).  It returns
the (unchanged) data store and `some response` when `uart_send` is called,
`none` when the frame is dropped or the handled case builds no response.
The switch cases present in the source (0x01, 0x03, 0x05, 0x06) are empty
stubs ending in `break`, so they leave `response_length = 0` and send
nothing; every other function code takes the `default` branch. -/
def modbus_process_request (st : ModbusState) (request : List Nat) :
    ModbusState × Option (List Nat) :=
  let request_length := request.length
  if request_length < 5 then (st, none)
  else
    let slave_addr := byteAt request 0
    let function_code := byteAt request 1
    let _address := (byteAt request 2) <<< 8 ||| byteAt request 3
    let _count := (byteAt request 4) <<< 8 ||| byteAt request 5
    if ¬ modbus_frame_crc_ok request then (st, none)
    else if slave_addr ≠ 0x01 then (st, none)
    else if function_code = FC_READ_COILS then (st, none)
    else if function_code = FC_READ_HOLDING_REGS then (st, none)
    else if function_code = FC_WRITE_SINGLE_COIL then (st, none)
    else if function_code = FC_WRITE_SINGLE_REG then (st, none)
    else (st, some (illegal_function_response slave_addr function_code))

/-- The buffer indices dereferenced by `modbus_process_request` on a frame of
the given length (source lines 62-69): after the minimum-length guard it
reads `request[0]`..`request[5]` for the header fields, indices
`0..request_length-3` inside `modbus_crc16(request, request_length - 2)`,
and the two trailing checksum bytes. -/
def modbus_request_read_indices (request_length : Nat) : List Nat :=
  if request_length < 5 then []
  else
    [0, 1, 2, 3, 4, 5] ++ List.range (request_length - 2) ++
      [request_length - 1, request_length - 2]

/-- The static receive state of `modbus_poll` (source lines 132-134): a
256-byte buffer, the fill count, and the frame-complete flag. -/
structure PollState where
  rx_buffer : List Nat
  rx_length : Nat
  frame_received : Bool
  deriving DecidableEq, Repr

/-- Initial poll state: zeroed static buffer, `rx_length = 0`,
`frame_received = false`. -/
def poll_init : PollState :=
  ⟨List.replicate 256 0, 0, false⟩

/-- One iteration of the receive loop of `modbus_poll` (source lines
138-150): store the byte at `rx_buffer[rx_length++]`, set `frame_received`
as soon as `rx_length > 4`, and reset `rx_length` to 0 on reaching 256. -/
def poll_rx_byte (st : PollState) (b : Nat) : PollState :=
  let buf := st.rx_buffer.set st.rx_length (b % 256)
  let len := st.rx_length + 1
  let fr := if len > 4 then true else st.frame_received
  if len ≥ 256 then ⟨buf, 0, fr⟩ else ⟨buf, len, fr⟩

/-- The framing part of `modbus_poll` (source lines 131-158): consume the
bytes the UART delivers during this call, then, if `frame_received` is set,
hand the first `rx_length` buffer bytes to the request processor as one
candidate frame and reset the accumulator.  Returns the new state and the
candidate frame handed over, if any. -/
def modbus_poll_frame (st : PollState) (bytes : List Nat) :
    PollState × Option (List Nat) :=
  let st2 := bytes.foldl poll_rx_byte st
  if st2.frame_received then
    (⟨st2.rx_buffer, 0, false⟩, some (st2.rx_buffer.take st2.rx_length))
  else (st2, none)

/-- The full `modbus_poll` (source lines 131-158): framing followed by
`modbus_process_request` on the candidate frame.  Returns the data store,
the poll state, and the bytes sent on the UART, if any. -/
def modbus_poll_run (data : ModbusState) (st : PollState) (bytes : List Nat) :
    ModbusState × PollState × Option (List Nat) :=
  match modbus_poll_frame st bytes with
  | (st2, none) => (data, st2, none)
  | (st2, some frame) =>
    let (data2, out) := modbus_process_request data frame
    (data2, st2, out)

/-- Feeding a sequence of per-poll byte batches to `modbus_poll_frame`,
collecting the candidate frames it emits.  An empty batch models a poll
cycle during which the line was silent (a gap). -/
def poll_frames (st : PollState) : List (List Nat) → List (Option (List Nat))
  | [] => []
  | batch :: rest =>
    let (st2, fr) := modbus_poll_frame st batch
    fr :: poll_frames st2 rest

end Modbus

namespace Modbus

/-- Appending the CRC of a body, low byte first, yields a frame that passes
the receiver's checksum verification; used to build concrete test frames. -/
def frame_of (body : List Nat) : List Nat :=
  body ++ [modbus_crc16 body % 256, modbus_crc16 body / 256]

/-- A broadcast (station 0) write-single-register frame: write value 0x04D2
to holding register 10, with a valid checksum. -/
def broadcast_write_frame : List Nat :=
  frame_of [0x00, 0x06, 0x00, 0x0A, 0x04, 0xD2]

/-- A unicast read-discrete-inputs frame (function code 0x02): read 10 bits
starting at address 0, with a valid checksum. -/
def read_discrete_frame : List Nat :=
  frame_of [0x01, 0x02, 0x00, 0x00, 0x00, 0x0A]

/-- A unicast read-holding-registers frame: start 95, quantity 10 (past the
end of the 100-cell bank), with a valid checksum. -/
def read95x10_frame : List Nat :=
  frame_of [0x01, 0x03, 0x00, 0x5F, 0x00, 0x0A]

/-- A unicast read-holding-registers frame: start 95, quantity 5 (in range),
with a valid checksum. -/
def read95x5_frame : List Nat :=
  frame_of [0x01, 0x03, 0x00, 0x5F, 0x00, 0x05]

/-- A unicast frame with the unassigned function code 0x07 and a valid
checksum. -/
def fc07_frame : List Nat :=
  frame_of [0x01, 0x07, 0x00, 0x00]

end Modbus

namespace Modbus

/-- C1: the decode of `modbus_process_request` dereferences buffer index 5
(the low byte of the count field, source line 65) on every frame passing the
minimum-length check, so a frame of length exactly 5 is read one byte past
its end: index 5 is among the indices read yet is not below the frame
length 5. -/
theorem read_past_frame_at_length_five :
    5 ∈ modbus_request_read_indices 5 ∧ ¬ (5 < 5) := by
  decide

/-- C2 counterexample: a valid-checksum broadcast write-single-register
frame (station 0, function 0x06, register 10, value 0x04D2) produces no
response bytes, but the requested write is NOT applied: the data store is
returned unchanged and holding register 10 still holds 0, not 0x04D2. -/
theorem broadcast_write_not_applied :
    modbus_frame_crc_ok broadcast_write_frame = true ∧
    byteAt broadcast_write_frame 0 = 0 ∧
    byteAt broadcast_write_frame 1 = FC_WRITE_SINGLE_REG ∧
    (modbus_process_request modbus_data_init broadcast_write_frame).1 =
      modbus_data_init ∧
    (modbus_process_request modbus_data_init
        broadcast_write_frame).1.holding_registers.getD 10 0 ≠ 0x04D2 ∧
    (modbus_process_request modbus_data_init broadcast_write_frame).2 =
      none := by
  decide

/-- C2 amended: a frame whose station address byte is 0 (broadcast) is
dropped by the address check `slave_addr != 0x01` (source line 77) before
any dispatch: even for a write function code with a valid checksum, the
store is unchanged and no response bytes are produced. -/
theorem broadcast_frame_dropped (st : ModbusState) (req : List Nat)
    (h5 : 5 ≤ req.length) (hcrc : modbus_frame_crc_ok req = true)
    (haddr : byteAt req 0 = 0)
    (_hfc : byteAt req 1 ∈ [FC_WRITE_SINGLE_COIL, FC_WRITE_SINGLE_REG,
      FC_WRITE_MULTIPLE_COILS, FC_WRITE_MULTIPLE_REGS]) :
    modbus_process_request st req = (st, none) := by
  have hlt : ¬ req.length < 5 := by omega
  simp [modbus_process_request, hlt, hcrc, haddr]

/-- C2 amended, witness at the concrete broadcast frame. -/
theorem broadcast_frame_dropped_witness :
    modbus_process_request modbus_data_init broadcast_write_frame =
      (modbus_data_init, none) :=
  broadcast_frame_dropped modbus_data_init broadcast_write_frame
    (by decide) (by decide) (by decide) (by decide)

/-- C3 counterexample: the standard function code 0x02 (read discrete
inputs), sent in a valid-checksum unicast frame with in-range address 0 and
quantity 10, is NOT recognized by the switch (source lines 80-106): it
falls into the `default` branch and the device answers with an
Exception(IllegalFunction) frame whose third byte is the exception code
0x01. -/
theorem standard_read_discrete_gets_illegal_function :
    modbus_frame_crc_ok read_discrete_frame = true ∧
    byteAt read_discrete_frame 0 = 1 ∧
    byteAt read_discrete_frame 1 = FC_READ_DISCRETE_INPUTS ∧
    (modbus_process_request modbus_data_init read_discrete_frame).2 =
      some (illegal_function_response 1 FC_READ_DISCRETE_INPUTS) ∧
    (illegal_function_response 1 FC_READ_DISCRETE_INPUTS).getD 2 0 =
      ERROR_ILLEGAL_FUNCTION := by
  decide

/-- C3 amended: only the four function codes present in the switch (0x01
read coils, 0x03 read holding registers, 0x05 write single coil, 0x06 write
single register) are recognized, and their empty stub cases produce no
response at all; every other code — including the standard 0x02, 0x04,
0x0F, 0x10 — produces the Exception(IllegalFunction) frame. -/
theorem function_code_dispatch (st : ModbusState) (req : List Nat)
    (h5 : 5 ≤ req.length) (hcrc : modbus_frame_crc_ok req = true)
    (haddr : byteAt req 0 = 1) :
    (modbus_process_request st req).2 =
      if byteAt req 1 ∈ [FC_READ_COILS, FC_READ_HOLDING_REGS,
          FC_WRITE_SINGLE_COIL, FC_WRITE_SINGLE_REG] then none
      else some (illegal_function_response 1 (byteAt req 1)) := by
  have hlt : ¬ req.length < 5 := by omega
  simp only [modbus_process_request, hlt, if_false, hcrc, haddr,
    List.mem_cons, List.not_mem_nil, or_false]
  split_ifs <;> simp_all [FC_READ_COILS, FC_READ_HOLDING_REGS,
    FC_WRITE_SINGLE_COIL, FC_WRITE_SINGLE_REG]

/-- C3 amended, witness at the concrete read-discrete-inputs frame. -/
theorem function_code_dispatch_witness :
    (modbus_process_request modbus_data_init read_discrete_frame).2 =
      some (illegal_function_response 1 FC_READ_DISCRETE_INPUTS) := by
  rw [function_code_dispatch modbus_data_init read_discrete_frame
    (by decide) (by decide) (by decide)]
  decide

/-- C4: `modbus_crc16` agrees with the standard Modbus CRC-16: on the empty
input it returns the initial value 0xFFFF unchanged (no final xor), and on
the known vector [0x01,0x03,0x00,0x00,0x00,0x01] it returns 0x0A84. -/
theorem crc16_standard_vector :
    modbus_crc16 [] = 0xFFFF ∧
    modbus_crc16 [0x01, 0x03, 0x00, 0x00, 0x00, 0x01] = 0x0A84 := by
  decide

/-- C5: a frame shorter than 5 bytes, or one whose trailing checksum does
not match the CRC-16 of the preceding bytes, is silently dropped: the store
is unchanged and no response bytes are produced (source lines 60 and 70). -/
theorem invalid_frame_dropped (st : ModbusState) (req : List Nat)
    (h : req.length < 5 ∨ modbus_frame_crc_ok req = false) :
    modbus_process_request st req = (st, none) := by
  rcases h with h | h
  · simp [modbus_process_request, h]
  · by_cases h5 : req.length < 5
    · simp [modbus_process_request, h5]
    · simp [modbus_process_request, h5, h]

/-- C5 witness: the 3-byte frame [1,2,3] is below the minimum length and is
dropped without touching the store. -/
theorem invalid_frame_dropped_witness :
    ([1, 2, 3] : List Nat).length < 5 ∧
    modbus_process_request modbus_data_init [1, 2, 3] =
      (modbus_data_init, none) :=
  ⟨by decide,
    invalid_frame_dropped modbus_data_init [1, 2, 3] (Or.inl (by decide))⟩

end Modbus

namespace Modbus

/-- C6 counterexample: on the 100-cell holding-register bank, the
valid-checksum read request for start 95 / quantity 10 does NOT get an
Exception(IllegalDataAddress) answer, and the in-range request for start
95 / quantity 5 does NOT get a success answer with 5 register values:
the read-holding-registers case of the switch (source lines 85-87) is an
empty stub, so both requests produce no response bytes at all. -/
theorem read_holding_stub_no_response :
    modbus_frame_crc_ok read95x10_frame = true ∧
    byteAt read95x10_frame 1 = FC_READ_HOLDING_REGS ∧
    (modbus_process_request modbus_data_init read95x10_frame).2 = none ∧
    modbus_frame_crc_ok read95x5_frame = true ∧
    byteAt read95x5_frame 1 = FC_READ_HOLDING_REGS ∧
    (modbus_process_request modbus_data_init read95x5_frame).2 = none := by
  decide

/-- C6 amended: every valid-checksum unicast read-holding-registers frame
(function code 0x03), whatever its start address and quantity, is consumed
by the empty stub case: the store is unchanged and no response bytes are
produced — neither an exception for start 95 / quantity 10 nor register
values for start 95 / quantity 5. -/
theorem read_holding_regs_dropped (st : ModbusState) (req : List Nat)
    (h5 : 5 ≤ req.length) (hcrc : modbus_frame_crc_ok req = true)
    (haddr : byteAt req 0 = 1) (hfc : byteAt req 1 = FC_READ_HOLDING_REGS) :
    modbus_process_request st req = (st, none) := by
  have hlt : ¬ req.length < 5 := by omega
  simp [modbus_process_request, hlt, hcrc, haddr, hfc,
    FC_READ_COILS, FC_READ_HOLDING_REGS]

/-- C6 amended, witness at the concrete start-95 quantity-10 frame. -/
theorem read_holding_regs_dropped_witness :
    modbus_process_request modbus_data_init read95x10_frame =
      (modbus_data_init, none) :=
  read_holding_regs_dropped modbus_data_init read95x10_frame
    (by decide) (by decide) (by decide) (by decide)

/-- C7: a valid-checksum frame addressed to the configured unicast station 1
whose function code is none of the four handled ones falls into the
`default` branch, and the transmitted response is exactly the five bytes
[station_addr, function_code | 0x80, 0x01, crc_lo, crc_hi], where 0x01 is
the IllegalFunction exception code and crc_lo / crc_hi are the low and high
byte of the CRC-16 over the first three bytes (source lines 99-116). -/
theorem illegal_function_exception_frame (st : ModbusState) (req : List Nat)
    (h5 : 5 ≤ req.length) (hcrc : modbus_frame_crc_ok req = true)
    (haddr : byteAt req 0 = 1)
    (hfc : byteAt req 1 ∉ [FC_READ_COILS, FC_READ_HOLDING_REGS,
      FC_WRITE_SINGLE_COIL, FC_WRITE_SINGLE_REG]) :
    (modbus_process_request st req).2 =
      some [1, byteAt req 1 ||| 0x80, ERROR_ILLEGAL_FUNCTION,
        modbus_crc16 [1, byteAt req 1 ||| 0x80, ERROR_ILLEGAL_FUNCTION] % 256,
        modbus_crc16 [1, byteAt req 1 ||| 0x80,
          ERROR_ILLEGAL_FUNCTION] / 256] := by
  have hlt : ¬ req.length < 5 := by omega
  simp only [List.mem_cons, List.not_mem_nil, or_false, not_or] at hfc
  obtain ⟨h1, h2, h3, h4⟩ := hfc
  simp [modbus_process_request, hlt, hcrc, haddr, h1, h2, h3, h4,
    illegal_function_response]

/-- C7 witness: the concrete unassigned function code 0x07 produces exactly
the five-byte IllegalFunction exception frame. -/
theorem illegal_function_exception_frame_witness :
    byteAt fc07_frame 0 = 1 ∧
    (modbus_process_request modbus_data_init fc07_frame).2 =
      some [1, byteAt fc07_frame 1 ||| 0x80, ERROR_ILLEGAL_FUNCTION,
        modbus_crc16 [1, byteAt fc07_frame 1 ||| 0x80,
          ERROR_ILLEGAL_FUNCTION] % 256,
        modbus_crc16 [1, byteAt fc07_frame 1 ||| 0x80,
          ERROR_ILLEGAL_FUNCTION] / 256] :=
  ⟨by decide,
    illegal_function_exception_frame modbus_data_init fc07_frame
      (by decide) (by decide) (by decide) (by decide)⟩

/-- C8: the receive path has no inter-character timer at all — it marks a
frame complete as soon as `rx_length > 4` (source line 142).  Feeding the
bytes [0x01,0x03], then a silent poll cycle (the gap), then
[0x00,0x00,0x00,0x01] therefore yields no frame for the first two cycles
and ONE six-byte candidate frame [01 03 00 00 00 01] on the third, not the
two separate frames ([01 03] dropped, [00 00 00 01] evaluated) that
timeout-based framing requires. -/
theorem poll_no_timer_single_frame :
    poll_frames poll_init [[0x01, 0x03], [], [0x00, 0x00, 0x00, 0x01]] =
      [none, none, some [0x01, 0x03, 0x00, 0x00, 0x00, 0x01]] := by
  decide

/-- C9: `modbus_process_request` never modifies any of the four data banks:
every branch of the source, including the four stub cases for function
codes 0x01, 0x03, 0x05 and 0x06 and the exception branch, leaves the store
as it was. -/
theorem process_request_preserves_store (st : ModbusState) (req : List Nat) :
    (modbus_process_request st req).1 = st := by
  simp only [modbus_process_request]
  split_ifs <;> rfl

end Modbus

namespace Modbus

/-- Helper: one receive step keeps the fill count at or below 255, because
the count is reset to 0 the moment it would reach 256. -/
lemma poll_rx_byte_rx_length_le (st : PollState) (b : Nat)
    (h : st.rx_length ≤ 255) : (poll_rx_byte st b).rx_length ≤ 255 := by
  unfold poll_rx_byte
  dsimp only
  split
  · exact Nat.zero_le 255
  · next hlt =>
      show st.rx_length + 1 ≤ 255
      omega

/-- Helper: one receive step writes exactly one buffer cell, preserving the
buffer length. -/
lemma poll_rx_byte_rx_buffer_length (st : PollState) (b : Nat) :
    (poll_rx_byte st b).rx_buffer.length = st.rx_buffer.length := by
  unfold poll_rx_byte
  dsimp only
  split <;> simp

/-- Helper: the whole receive loop of one poll call preserves the fill-count
bound and the buffer length. -/
lemma foldl_poll_rx_byte_inv (bytes : List Nat) :
    ∀ st : PollState, st.rx_length ≤ 255 →
      (bytes.foldl poll_rx_byte st).rx_length ≤ 255 ∧
      (bytes.foldl poll_rx_byte st).rx_buffer.length =
        st.rx_buffer.length := by
  induction bytes with
  | nil => intro st h; exact ⟨h, rfl⟩
  | cons b rest ih =>
    intro st h
    have step := ih (poll_rx_byte st b) (poll_rx_byte_rx_length_le st b h)
    simpa [poll_rx_byte_rx_buffer_length st b] using step

/-- C10: starting from any poll state whose fill count is at most 255 (as
the initial state is), the next buffer write lands at an index below 256;
after consuming any byte sequence the fill count is again at most 255 and
the buffer length is unchanged; and any candidate frame handed to
`modbus_process_request` has length at most 255.  Hence `rx_buffer` is
never indexed out of bounds and the invariant `rx_length ≤ 255` is
preserved across `modbus_poll` calls. -/
theorem poll_rx_length_invariant (st : PollState) (b : Nat)
    (bytes : List Nat) (fr : List Nat) (h : st.rx_length ≤ 255) :
    st.rx_length < 256 ∧
    (poll_rx_byte st b).rx_length ≤ 255 ∧
    (bytes.foldl poll_rx_byte st).rx_length ≤ 255 ∧
    (bytes.foldl poll_rx_byte st).rx_buffer.length = st.rx_buffer.length ∧
    ((modbus_poll_frame st bytes).2 = some fr → fr.length ≤ 255) := by
  obtain ⟨hlen, hbuf⟩ := foldl_poll_rx_byte_inv bytes st h
  refine ⟨by omega, poll_rx_byte_rx_length_le st b h, hlen, hbuf, ?_⟩
  intro hfr
  unfold modbus_poll_frame at hfr
  dsimp only at hfr
  split at hfr
  · have hfr2 := Option.some.inj hfr
    calc fr.length
        = ((bytes.foldl poll_rx_byte st).rx_buffer.take
            (bytes.foldl poll_rx_byte st).rx_length).length := by
          rw [hfr2]
      _ ≤ (bytes.foldl poll_rx_byte st).rx_length := by
          simp [List.length_take]
      _ ≤ 255 := hlen
  · exact absurd hfr (by simp)

/-- C10 witness: from the initial poll state, after seven received bytes the
fill count is still at most 255 and the handed frame has length at most
255. -/
theorem poll_rx_length_invariant_witness :
    poll_init.rx_length ≤ 255 ∧
    (([1, 2, 3, 4, 5, 6, 7] : List Nat).foldl
      poll_rx_byte poll_init).rx_length ≤ 255 ∧
    ((modbus_poll_frame poll_init [1, 2, 3, 4, 5, 6, 7]).2 =
        some [1, 2, 3, 4, 5, 6, 7] → ([1, 2, 3, 4, 5, 6, 7] : List Nat).length ≤ 255) :=
  ⟨by decide,
    (poll_rx_length_invariant poll_init 9 [1, 2, 3, 4, 5, 6, 7]
      [1, 2, 3, 4, 5, 6, 7] (by decide)).2.2.1,
    (poll_rx_length_invariant poll_init 9 [1, 2, 3, 4, 5, 6, 7]
      [1, 2, 3, 4, 5, 6, 7] (by decide)).2.2.2.2⟩

end Modbus
